import Mathlib

/-!
Verification of the core stress/strain engine of Elastic_stresses_py
(PyCoulomb).  The Python sources embedded here are
`PyCoulomb/conversion_math.py`, `PyCoulomb/run_dc3d.py` and
`PyCoulomb/coulomb_collections.py`.  Machine floats are modelled by real
numbers; the external Okada dislocation solver (`okada_wrapper`) and the
external geodesy helpers (`Tectonic_Utils.geodesy.fault_vector_functions`)
are out-of-scope collaborators and are modelled as oracle records that the
embedded functions receive as parameters.
-/

noncomputable section

abbrev Vec3 := Fin 3 → ℝ

abbrev Mat3 := Matrix (Fin 3) (Fin 3) ℝ

/-- Embedding of `np.deg2rad`. -/
def deg2rad (d : ℝ) : ℝ := d * Real.pi / 180

/-- Embedding of `Params` namedtuple (coulomb_collections.py lines 5-11). -/
structure Params where
  config_file : String
  input_file : String
  aftershocks : String
  disp_points_file : String
  strain_file : String
  strike_num_receivers : ℕ
  dip_num_receivers : ℕ
  fixed_rake : ℝ
  mu : ℝ
  lame1 : ℝ
  B : ℝ
  alpha : ℝ
  outdir : String

/-- Embedding of `Faults_object` namedtuple (coulomb_collections.py lines 13-19). -/
structure Faults_object where
  xstart : ℝ
  xfinish : ℝ
  ystart : ℝ
  yfinish : ℝ
  Kode : ℤ
  zerolon : ℝ
  zerolat : ℝ
  rtlat : ℝ
  reverse : ℝ
  tensile : ℝ
  potency : List ℝ
  strike : ℝ
  dipangle : ℝ
  rake : ℝ
  top : ℝ
  bottom : ℝ
  comment : String

/-- Embedding of `Input_object` namedtuple (coulomb_collections.py lines 21-31). -/
structure Input_object where
  PR1 : ℝ
  FRIC : ℝ
  depth : ℝ
  start_gridx : ℝ
  finish_gridx : ℝ
  start_gridy : ℝ
  finish_gridy : ℝ
  xinc : ℝ
  yinc : ℝ
  minlon : ℝ
  maxlon : ℝ
  zerolon : ℝ
  minlat : ℝ
  maxlat : ℝ
  zerolat : ℝ
  source_object : List Faults_object
  receiver_object : List Faults_object

/-- Embedding of `Displacement_points` namedtuple (coulomb_collections.py lines 41-45).
In Python the observed-value slots hold either a number/string or the empty
tuple `()`; `Option` models present/empty. -/
structure Displacement_points where
  lon : ℝ
  lat : ℝ
  dE_obs : Option ℝ
  dN_obs : Option ℝ
  dU_obs : Option ℝ
  Se_obs : Option ℝ
  Sn_obs : Option ℝ
  Su_obs : Option ℝ
  name : Option String

/-- Shape of the strain-point input as used by `compute_ll_strain`
(run_dc3d.py lines 149-151 access `strain_points.lon[i]` and
`strain_points.lat[i]`): an object carrying parallel coordinate lists. -/
structure Strain_points where
  lon : List ℝ
  lat : List ℝ

/-- Oracle for the external Okada dislocation solvers (`okada_wrapper`,
out of scope per the spec).  Each solver returns a success flag, a
displacement 3-vector and a 3x3 displacement-gradient tensor; the Python
callers discard the flag.  `dc3dwrapper` takes alpha, the fault-local
observation point, depth, dip, the along-strike extent pair, the downdip
extent pair and the slip triple; `dc3d0wrapper` takes alpha, the point,
depth, dip and the 4-component potency. -/
structure OkadaSolver where
  dc3dwrapper : ℝ → Vec3 → ℝ → ℝ → ℝ × ℝ → ℝ × ℝ → ℝ × ℝ × ℝ → ℤ × Vec3 × Mat3
  dc3d0wrapper : ℝ → Vec3 → ℝ → ℝ → ℝ × ℝ × ℝ × ℝ → ℤ × Vec3 × Mat3

/-- Oracle for the external geodesy helpers
(`Tectonic_Utils.geodesy.fault_vector_functions`, out of scope per the
spec): strike length, downdip width, polar offset of a point, geographic
to local-Cartesian conversion, and the receiver strike/dip/normal unit
vectors. -/
structure GeodesyFns where
  get_strike_length : ℝ → ℝ → ℝ → ℝ → ℝ
  get_downdip_width : ℝ → ℝ → ℝ → ℝ
  add_vector_to_point : ℝ → ℝ → ℝ → ℝ → ℝ × ℝ
  latlon2xy : ℝ → ℝ → ℝ → ℝ → ℝ × ℝ
  get_strike_vector : ℝ → Vec3
  get_dip_vector : ℝ → ℝ → Vec3
  get_plane_normal : ℝ → ℝ → Vec3

/-- Embedding of `get_strain_tensor` (conversion_math.py lines 19-29):
entry (i,j) is `0.5 * (dUidUj[i][j] + dUidUj[j][i])`. -/
def get_strain_tensor (dUidUj : Mat3) : Mat3 :=
  Matrix.of fun i j => 0.5 * (dUidUj i j + dUidUj j i)

/-- Embedding of `get_stress_tensor` (conversion_math.py lines 31-45): diagonal entries
are `lamda*(e00+e11+e22) + 2*mu*e[i][j]`, off-diagonal entries `2*mu*e[i][j]`. -/
def get_stress_tensor (eij : Mat3) (lamda mu : ℝ) : Mat3 :=
  Matrix.of fun i j =>
    if i = j then lamda * (eij 0 0 + eij 1 1 + eij 2 2) + 2 * mu * eij i j
    else 2 * mu * eij i j

/-- Embedding of `get_coulomb_stresses_internal` (conversion_math.py lines 67-103).
Returns (effective normal stress, shear stress in the rake direction,
Coulomb stress), the first two converted from Pa to kPa. -/
def get_coulomb_stresses_internal (tau : Mat3) (rec_strike_vector : Vec3)
    (rake : ℝ) (rec_dip_vector rec_plane_normal : Vec3) (friction B : ℝ) :
    ℝ × ℝ × ℝ :=
  let traction_vector := tau.mulVec rec_plane_normal
  let dry_normal_stress := Matrix.dotProduct rec_plane_normal traction_vector
  let effective_normal_stress := dry_normal_stress - Matrix.trace tau / 3 * B
  let shear_rtlat := Matrix.dotProduct rec_strike_vector traction_vector
  let shear_reverse := Matrix.dotProduct rec_dip_vector traction_vector
  let rake_rad := deg2rad rake
  let R : Matrix (Fin 2) (Fin 2) ℝ :=
    !![Real.cos rake_rad, -Real.sin rake_rad; Real.sin rake_rad, Real.cos rake_rad]
  let shear_vector : Fin 2 → ℝ := ![shear_rtlat, shear_reverse]
  let rotated_shear := R.mulVec shear_vector
  let shear_in_rake_dir := rotated_shear 0
  let effective_normal_kPa := effective_normal_stress / 1000
  let shear_stress := shear_in_rake_dir / 1000
  let coulomb_stress := shear_stress + friction * effective_normal_kPa
  (effective_normal_kPa, shear_stress, coulomb_stress)

/-- Embedding of `get_coulomb_stresses` (conversion_math.py lines 47-64): builds the
receiver strike/dip/normal vectors with the geodesy helpers, then calls
`get_coulomb_stresses_internal`. -/
def get_coulomb_stresses (geo : GeodesyFns) (tau : Mat3)
    (strike rake dip friction B : ℝ) : ℝ × ℝ × ℝ :=
  get_coulomb_stresses_internal tau (geo.get_strike_vector strike) rake
    (geo.get_dip_vector strike dip) (geo.get_plane_normal strike dip) friction B

/-- The 3x3 horizontal rotation matrix written literally (with `0` and `1`
in the third row/column) at conversion_math.py lines 185-187 and again
inline at run_dc3d.py lines 261-263. -/
def rotation_z (theta : ℝ) : Mat3 :=
  !![Real.cos theta, -Real.sin theta, 0;
     Real.sin theta, Real.cos theta, 0;
     0, 0, 1]

/-- Embedding of `get_R_from_strike` (conversion_math.py lines 180-188): forward matrix
from theta = strike - 90 (in radians), inverse matrix from -theta. -/
def get_R_from_strike (strike : ℝ) : Mat3 × Mat3 :=
  let theta := deg2rad (strike - 90)
  (rotation_z theta, rotation_z (-theta))

/-- Embedding of `get_fault_center` (conversion_math.py lines 110-123).  The function
reads `fault_object.W`; the snapshot's `Faults_object` namedtuple carries
no `W` field.  Modelled from the spec: width W is a derived quantity
"computed on demand from the stored fields" (spec section 3), obtained
from top, bottom and dip angle via the external downdip-width helper. -/
def get_fault_center (geo : GeodesyFns) (fault_object : Faults_object) :
    ℝ × ℝ × ℝ :=
  let W := geo.get_downdip_width fault_object.top fault_object.bottom fault_object.dipangle
  let center_z := (fault_object.top + fault_object.bottom) / 2
  let updip_center_x := (fault_object.xstart + fault_object.xfinish) / 2
  let updip_center_y := (fault_object.ystart + fault_object.yfinish) / 2
  let vector_mag := W * Real.cos (deg2rad fault_object.dipangle) / 2
  let center_point := geo.add_vector_to_point updip_center_x updip_center_y
    vector_mag (fault_object.strike + 90)
  (center_point.1, center_point.2, center_z)

/-- Exact-arithmetic model of `np.arange(start, stop, step)`: the values
`start + i*step` for `i` below `ceil((stop - start)/step)` (clamped at 0). -/
def arange (start stop step : ℝ) : List ℝ :=
  (List.range (Int.toNat ⌈(stop - start) / step⌉)).map fun i => start + (i : ℝ) * step

/-- Embedding of `get_split_x_y_arrays` (run_dc3d.py lines 93-111): per axis, a constant
list of `strike_split + 1` copies when the endpoints coincide, otherwise
`np.arange(start, finish + increment, increment)` with
`increment = (finish - start)/strike_split`. -/
def get_split_x_y_arrays (start_x_top finish_x_top start_y_top finish_y_top : ℝ)
    (strike_split : ℕ) : List ℝ × List ℝ :=
  let xsplit_array :=
    if start_x_top = finish_x_top then
      List.replicate (strike_split + 1) start_x_top
    else
      arange start_x_top (finish_x_top + (finish_x_top - start_x_top) / strike_split)
        ((finish_x_top - start_x_top) / strike_split)
  let ysplit_array :=
    if start_y_top = finish_y_top then
      List.replicate (strike_split + 1) start_y_top
    else
      arange start_y_top (finish_y_top + (finish_y_top - start_y_top) / strike_split)
        ((finish_y_top - start_y_top) / strike_split)
  (xsplit_array, ysplit_array)

/-- Embedding of `get_split_z_array` (run_dc3d.py lines 114-120). -/
def get_split_z_array (top bottom : ℝ) (dip_split : ℕ) : List ℝ :=
  if top = bottom then List.replicate (dip_split + 1) top
  else arange top (bottom + |top - bottom| / dip_split) (|top - bottom| / dip_split)

/-- The body of the receiver-splitting loops (run_dc3d.py lines 51-80) for
one receiver fault: for each of `dip_split` depth rows, displace the top
edge downdip, split the edge into `strike_split` segments, and build the
zero-slip sub-patches.  Python's indexing `zsplit_array[j]` etc. is
modelled with `List.getD` (in-bounds whenever the parent has
`top <= bottom`, the domain on which the Python code runs without error). -/
def split_one_receiver (geo : GeodesyFns) (inputs : Input_object)
    (strike_split dip_split : ℕ) (fault : Faults_object) : List Faults_object :=
  let zsplit_array := get_split_z_array fault.top fault.bottom dip_split
  (List.range dip_split).flatMap fun j =>
    let W := geo.get_downdip_width fault.top (zsplit_array.getD j 0) fault.dipangle
    let vector_mag := W * Real.cos (deg2rad fault.dipangle)
    let start_top := geo.add_vector_to_point fault.xstart fault.ystart vector_mag (fault.strike + 90)
    let finish_top := geo.add_vector_to_point fault.xfinish fault.yfinish vector_mag (fault.strike + 90)
    let xsplit_array := (get_split_x_y_arrays start_top.1 finish_top.1 start_top.2 finish_top.2 strike_split).1
    let ysplit_array := (get_split_x_y_arrays start_top.1 finish_top.1 start_top.2 finish_top.2 strike_split).2
    (List.range strike_split).map fun k =>
      { xstart := xsplit_array.getD k 0, xfinish := xsplit_array.getD (k + 1) 0,
        ystart := ysplit_array.getD k 0, yfinish := ysplit_array.getD (k + 1) 0,
        Kode := fault.Kode, rtlat := 0, reverse := 0, tensile := 0, potency := [],
        strike := fault.strike, dipangle := fault.dipangle,
        zerolon := inputs.zerolon, zerolat := inputs.zerolat,
        rake := fault.rake, top := zsplit_array.getD j 0,
        bottom := zsplit_array.getD (j + 1) 0, comment := fault.comment }

/-- Embedding of `split_subfault_receivers` (run_dc3d.py lines 38-90): with both split
counts equal to 1 the receiver list passes through unchanged; otherwise
every receiver is replaced by its sub-patches (the Python loop appends the
patches of each receiver in turn into one flat list).  All other fields of
the input bundle are copied into the result. -/
def split_subfault_receivers (geo : GeodesyFns) (params : Params)
    (inputs : Input_object) : Input_object :=
  let strike_split := params.strike_num_receivers
  let dip_split := params.dip_num_receivers
  let subfaulted_receivers :=
    if strike_split = 1 ∧ dip_split = 1 then inputs.receiver_object
    else inputs.receiver_object.flatMap (split_one_receiver geo inputs strike_split dip_split)
  { inputs with receiver_object := subfaulted_receivers }

/-- Embedding of `compute_strains_stresses_from_one_fault` (run_dc3d.py lines 245-285):
rotate the observation point into fault-aligned coordinates, dispatch on
`source.potency` (a non-empty list is truthy in Python) to the point or
finite Okada solver, apply the unit corrections, and rotate the results
back with R2 (gradient conjugated by R2 and its transpose). -/
def compute_strains_stresses_from_one_fault (ok : OkadaSolver) (geo : GeodesyFns)
    (source : Faults_object) (x y z : ℝ) (params : Params) : Mat3 × Vec3 :=
  let L := geo.get_strike_length source.xstart source.xfinish source.ystart source.yfinish
  let W := geo.get_downdip_width source.top source.bottom source.dipangle
  let depth := source.top
  let dip := source.dipangle
  let strike_slip := source.rtlat * (-1)
  let dip_slip := source.reverse
  let theta := deg2rad (source.strike - 90)
  let R := rotation_z theta
  let R2 := rotation_z (-theta)
  let translated_pos : Vec3 := ![x - source.xstart, y - source.ystart, -z]
  let xyz := R.mulVec translated_pos
  if source.potency.isEmpty then
    let res := ok.dc3dwrapper params.alpha xyz depth dip (0, L) (-W, 0)
      (strike_slip, dip_slip, source.tensile)
    let grad_u := (1e-3 : ℝ) • res.2.2
    (R2 * grad_u * R2.transpose, R2.mulVec res.2.1)
  else
    let res := ok.dc3d0wrapper params.alpha xyz depth dip
      (source.potency.getD 0 0, source.potency.getD 1 0,
       source.potency.getD 2 0, source.potency.getD 3 0)
    let grad_u := (1e-9 : ℝ) • res.2.2
    let u := (1e-6 : ℝ) • res.2.1
    (R2 * grad_u * R2.transpose, R2.mulVec u)

/-- Embedding of `compute_surface_disp_point` (run_dc3d.py lines 176-200): fold over the
source list at surface depth, accumulating the three displacement
components and the total strain tensor (each source's strain is added as
`np.add(strain_tensor, strain_tensor_total)`). -/
def compute_surface_disp_point (ok : OkadaSolver) (geo : GeodesyFns)
    (params : Params) (inputs : Input_object) (x y : ℝ) : ℝ × ℝ × ℝ × Mat3 :=
  inputs.source_object.foldl
    (fun acc fault =>
      let res := compute_strains_stresses_from_one_fault ok geo fault x y 0 params
      let strain_tensor := get_strain_tensor res.1
      (acc.1 + res.2 0, acc.2.1 + res.2 1, acc.2.2.1 + res.2 2,
       strain_tensor + acc.2.2.2))
    (0, 0, 0, (0 : Mat3))

/-- Embedding of `compute_ll_def` (run_dc3d.py lines 164-173): map over the input
points; each output point keeps the input's lon/lat, stores the summed
model displacements in the `dE_obs`/`dN_obs`/`dU_obs` slots (the Python
`u_disp[0]` indexing unwraps the 1-element numpy array produced by the
column-vector rotation) and fills every remaining slot with the empty
tuple `()`. -/
def compute_ll_def (ok : OkadaSolver) (geo : GeodesyFns) (params : Params)
    (inputs : Input_object) (disp_points : List Displacement_points) :
    List Displacement_points :=
  disp_points.map fun point =>
    let xy := geo.latlon2xy point.lon point.lat inputs.zerolon inputs.zerolat
    let res := compute_surface_disp_point ok geo params inputs xy.1 xy.2
    { lon := point.lon, lat := point.lat,
      dE_obs := some res.1, dN_obs := some res.2.1, dU_obs := some res.2.2.1,
      Se_obs := none, Sn_obs := none, Su_obs := none, name := none }

/-- Embedding of `compute_ll_strain` (run_dc3d.py lines 144-161): an absent
strain-point bundle (falsy in Python, `return [None]`) yields the absent
result; otherwise each coordinate pair is converted to local Cartesian and
the summed strain tensor is collected per point. -/
def compute_ll_strain (ok : OkadaSolver) (geo : GeodesyFns) (params : Params)
    (inputs : Input_object) (strain_points : Option Strain_points) :
    Option (List Mat3) :=
  match strain_points with
  | none => none
  | some sp =>
    some ((List.range sp.lon.length).map fun i =>
      let xy := geo.latlon2xy (sp.lon.getD i 0) (sp.lat.getD i 0) inputs.zerolon inputs.zerolat
      (compute_surface_disp_point ok geo params inputs xy.1 xy.2).2.2.2)

/-- Embedding of `compute_strains_stresses` (run_dc3d.py lines 203-242): empty receiver
list short-circuits to three empty lists; otherwise, per receiver, fold
over the sources accumulating the per-source resolved
(normal, shear, coulomb) triples at the receiver center, and collect the
per-receiver sums into three parallel lists (the Python loop appends the
three sums of each receiver in lockstep). -/
def compute_strains_stresses (ok : OkadaSolver) (geo : GeodesyFns)
    (params : Params) (inputs : Input_object) : List ℝ × List ℝ × List ℝ :=
  if inputs.receiver_object.isEmpty then ([], [], [])
  else
    let rows := inputs.receiver_object.map fun receiver =>
      let centercoords := get_fault_center geo receiver
      inputs.source_object.foldl
        (fun acc source =>
          let grad := (compute_strains_stresses_from_one_fault ok geo source
            centercoords.1 centercoords.2.1 centercoords.2.2 params).1
          let strain_tensor := get_strain_tensor grad
          let stress_tensor := get_stress_tensor strain_tensor params.lame1 params.mu
          let nsc := get_coulomb_stresses geo stress_tensor receiver.strike
            receiver.rake receiver.dipangle inputs.FRIC params.B
          (acc.1 + nsc.1, acc.2.1 + nsc.2.1, acc.2.2 + nsc.2.2))
        (0, 0, 0)
    (rows.map fun t => t.1, rows.map fun t => t.2.1, rows.map fun t => t.2.2)

/-- The Coulomb resolution written the way the spec states it (spec
section 4.3): effectiveNormal is `(n . traction - (trace/3)*B) / 1000`,
shear is the first component of the standard 2D rotation by the rake angle
applied to `(strikeVector . traction, dipVector . traction)`, divided by
1000, and coulomb is `shear + friction * effectiveNormal`. -/
def coulomb_resolver_spec (tau : Mat3) (sv : Vec3) (rake : ℝ) (dv pn : Vec3)
    (friction B : ℝ) : ℝ × ℝ × ℝ :=
  let traction := tau.mulVec pn
  let effective_normal := (Matrix.dotProduct pn traction - Matrix.trace tau / 3 * B) / 1000
  let shear := (Real.cos (deg2rad rake) * Matrix.dotProduct sv traction
    - Real.sin (deg2rad rake) * Matrix.dotProduct dv traction) / 1000
  (effective_normal, shear, shear + friction * effective_normal)

/-- The point-source branch of the source evaluator as the spec states it
(spec section 4.4 step 4, first bullet): invoke the point-source solver at
the rotated relative position and scale the whole returned displacement
gradient by 1e-9 and the whole displacement by 1e-6, after rotating both
back with R2 (and its transpose) from `get_R_from_strike`. -/
def one_fault_point_source_spec (ok : OkadaSolver) (source : Faults_object)
    (x y z : ℝ) (params : Params) : Mat3 × Vec3 :=
  let Rpair := get_R_from_strike source.strike
  let xyz := Rpair.1.mulVec ![x - source.xstart, y - source.ystart, -z]
  let res := ok.dc3d0wrapper params.alpha xyz source.top source.dipangle
    (source.potency.getD 0 0, source.potency.getD 1 0,
     source.potency.getD 2 0, source.potency.getD 3 0)
  ((1e-9 : ℝ) • (Rpair.2 * res.2.2 * Rpair.2.transpose),
   (1e-6 : ℝ) • Rpair.2.mulVec res.2.1)

/-- The finite-source branch of the source evaluator as the spec states it
(spec section 4.4 step 4, second bullet): invoke the rectangular solver
with strike extent [0, L], dip extent [-W, 0] and slip vector
(-rtlat, reverse, tensile), and scale the returned displacement gradient
by 1e-3 (the displacement is not scaled), both rotated back with R2. -/
def one_fault_finite_source_spec (ok : OkadaSolver) (geo : GeodesyFns)
    (source : Faults_object) (x y z : ℝ) (params : Params) : Mat3 × Vec3 :=
  let L := geo.get_strike_length source.xstart source.xfinish source.ystart source.yfinish
  let W := geo.get_downdip_width source.top source.bottom source.dipangle
  let Rpair := get_R_from_strike source.strike
  let xyz := Rpair.1.mulVec ![x - source.xstart, y - source.ystart, -z]
  let res := ok.dc3dwrapper params.alpha xyz source.top source.dipangle (0, L) (-W, 0)
    (-source.rtlat, source.reverse, source.tensile)
  ((1e-3 : ℝ) • (Rpair.2 * res.2.2 * Rpair.2.transpose), Rpair.2.mulVec res.2.1)

/-- Receiver-Coulomb mode as the spec states it (spec section 4.6): at the
receiver's geometric center, sum the strain-to-stress contributions of all
sources into one stress tensor, then resolve that summed tensor through
the Coulomb resolver once. -/
def receiver_coulomb_spec (ok : OkadaSolver) (geo : GeodesyFns) (params : Params)
    (inputs : Input_object) (receiver : Faults_object) : ℝ × ℝ × ℝ :=
  let centercoords := get_fault_center geo receiver
  let total_stress : Mat3 := inputs.source_object.foldl
    (fun acc source =>
      acc + get_stress_tensor
        (get_strain_tensor (compute_strains_stresses_from_one_fault ok geo source
          centercoords.1 centercoords.2.1 centercoords.2.2 params).1)
        params.lame1 params.mu)
    0
  get_coulomb_stresses geo total_stress receiver.strike receiver.rake
    receiver.dipangle inputs.FRIC params.B

/-- Point mode's per-point output contract as amended: keep the input
point's lon and lat, store the summed model displacement components in the
`dE_obs`/`dN_obs`/`dU_obs` slots, and leave every uncertainty slot and the
name empty regardless of the input point's own values. -/
def point_mode_spec (ok : OkadaSolver) (geo : GeodesyFns) (params : Params)
    (inputs : Input_object) (point : Displacement_points) : Displacement_points :=
  let xy := geo.latlon2xy point.lon point.lat inputs.zerolon inputs.zerolat
  let d := compute_surface_disp_point ok geo params inputs xy.1 xy.2
  { lon := point.lon, lat := point.lat,
    dE_obs := some d.1, dN_obs := some d.2.1, dU_obs := some d.2.2.1,
    Se_obs := none, Sn_obs := none, Su_obs := none, name := none }

/-- A concrete Okada oracle used by the witnesses. -/
def sampleOkada : OkadaSolver where
  dc3dwrapper := fun _ _ _ _ _ _ _ => (0, ![1, 2, 3], 1)
  dc3d0wrapper := fun _ _ _ _ _ => (0, ![4, 5, 6], 1)

/-- A concrete geodesy oracle used by the witnesses. -/
def sampleGeo : GeodesyFns where
  get_strike_length := fun _ _ _ _ => 1
  get_downdip_width := fun _ _ _ => 1
  add_vector_to_point := fun x y _ _ => (x, y)
  latlon2xy := fun lon lat _ _ => (lon, lat)
  get_strike_vector := fun _ => ![1, 0, 0]
  get_dip_vector := fun _ _ => ![0, 1, 0]
  get_plane_normal := fun _ _ => ![0, 0, 1]

/-- Concrete parameters used by the witnesses. -/
def sampleParams : Params where
  config_file := ""
  input_file := ""
  aftershocks := ""
  disp_points_file := ""
  strain_file := ""
  strike_num_receivers := 2
  dip_num_receivers := 1
  fixed_rake := 0
  mu := 1
  lame1 := 1
  B := 0
  alpha := 1
  outdir := ""

/-- A concrete finite-slip fault patch used by the witnesses. -/
def sampleFault : Faults_object where
  xstart := 0
  xfinish := 1
  ystart := 0
  yfinish := 0
  Kode := 2
  zerolon := 0
  zerolat := 0
  rtlat := 1
  reverse := 0
  tensile := 0
  potency := []
  strike := 0
  dipangle := 90
  rake := 0
  top := 0
  bottom := 10
  comment := ""

/-- A concrete input bundle over the given source and receiver lists. -/
def sampleInputs (srcs rcvs : List Faults_object) : Input_object where
  PR1 := 1 / 4
  FRIC := 2 / 5
  depth := 0
  start_gridx := 0
  finish_gridx := 1
  start_gridy := 0
  finish_gridy := 1
  xinc := 1
  yinc := 1
  minlon := 0
  maxlon := 1
  zerolon := 0
  minlat := 0
  maxlat := 1
  zerolat := 0
  source_object := srcs
  receiver_object := rcvs

/-- A concrete named observation point carrying observed values. -/
def samplePoint : Displacement_points where
  lon := 3
  lat := 4
  dE_obs := some 5
  dN_obs := some 6
  dU_obs := some 7
  Se_obs := some 1
  Sn_obs := some 1
  Su_obs := some 1
  name := some "P325"

/-- C7: for every 3x3 strain tensor and Lame parameters, `get_stress_tensor`
returns lamda*tr(e) + 2*mu*e[i][i] on the diagonal and 2*mu*e[i][j] off it,
i.e. Stress = lamda*tr(Strain)*I + 2*mu*Strain. -/
theorem get_stress_tensor_isotropic_law (eij : Mat3) (lamda mu : ℝ) :
    get_stress_tensor eij lamda mu
      = (lamda * Matrix.trace eij) • (1 : Mat3) + (2 * mu) • eij
    ∧ ∀ i j, get_stress_tensor eij lamda mu i j =
        if i = j then lamda * (eij 0 0 + eij 1 1 + eij 2 2) + 2 * mu * eij i j
        else 2 * mu * eij i j := by
  constructor
  · ext i j
    by_cases h : i = j
    · subst h
      simp [get_stress_tensor, Matrix.trace, Matrix.diag, Fin.sum_univ_three,
        Matrix.one_apply]
      try ring
    · simp [get_stress_tensor, h, Matrix.one_apply_ne h]
  · intro i j
    rfl

/-- C8: `get_strain_tensor` has entry (i,j) equal to 0.5*(G[i][j]+G[j][i])
and is exactly symmetric by construction. -/
theorem get_strain_tensor_symmetric (G : Mat3) (i j : Fin 3) :
    get_strain_tensor G i j = 0.5 * (G i j + G j i)
    ∧ get_strain_tensor G i j = get_strain_tensor G j i := by
  refine ⟨rfl, ?_⟩
  show 0.5 * (G i j + G j i) = 0.5 * (G j i + G i j)
  ring

/-- C3: `get_coulomb_stresses_internal` returns exactly the triple the spec
describes: effective normal stress (n.traction - (trace/3)*B)/1000, the
first component of the 2D rake rotation of the strike/dip shear components
divided by 1000, and coulomb = shear + friction*effectiveNormal. -/
theorem get_coulomb_stresses_internal_eq_spec (tau : Mat3) (sv : Vec3)
    (rake : ℝ) (dv pn : Vec3) (friction B : ℝ) :
    get_coulomb_stresses_internal tau sv rake dv pn friction B
      = coulomb_resolver_spec tau sv rake dv pn friction B := by
  simp only [get_coulomb_stresses_internal, coulomb_resolver_spec]
  refine Prod.ext rfl (Prod.ext ?_ ?_) <;>
    (simp [Matrix.mulVec, Matrix.dotProduct, Fin.sum_univ_two]; try ring)

theorem rotation_z_neg_eq_transpose (theta : ℝ) :
    rotation_z (-theta) = (rotation_z theta).transpose := by
  ext i j
  fin_cases i <;> fin_cases j <;>
    simp [rotation_z, Real.cos_neg, Real.sin_neg]

theorem rotation_z_neg_mul (theta : ℝ) :
    rotation_z (-theta) * rotation_z theta = 1 := by
  ext i j
  fin_cases i <;> fin_cases j <;>
    simp [rotation_z, Matrix.mul_apply, Fin.sum_univ_three, Matrix.one_apply,
      Real.cos_neg, Real.sin_neg] <;>
    nlinarith [Real.sin_sq_add_cos_sq theta]

/-- C6: `get_R_from_strike` builds R from theta = strike - 90 degrees and
R2 from -theta, R2 is the transpose of R and R2 * R is the identity; the
same matrices constructed inline in the source evaluator (the same
`rotation_z` construction at any angle) satisfy the same relation. -/
theorem get_R_from_strike_orthogonal (strike theta : ℝ) :
    (get_R_from_strike strike).1 = rotation_z (deg2rad (strike - 90))
    ∧ (get_R_from_strike strike).2 = (get_R_from_strike strike).1.transpose
    ∧ (get_R_from_strike strike).2 * (get_R_from_strike strike).1 = 1
    ∧ rotation_z (-theta) = (rotation_z theta).transpose
    ∧ rotation_z (-theta) * rotation_z theta = 1 :=
  ⟨rfl, rotation_z_neg_eq_transpose (deg2rad (strike - 90)),
   rotation_z_neg_mul (deg2rad (strike - 90)),
   rotation_z_neg_eq_transpose theta, rotation_z_neg_mul theta⟩

/-- C10: `compute_surface_disp_point` with an empty source list returns
zero displacement components and the 3x3 zero strain tensor (the empty sum
is the base case of the accumulation loop). -/
theorem compute_surface_disp_point_no_sources (ok : OkadaSolver)
    (geo : GeodesyFns) (params : Params) (inputs : Input_object) (x y : ℝ)
    (h : inputs.source_object = []) :
    compute_surface_disp_point ok geo params inputs x y = (0, 0, 0, (0 : Mat3)) := by
  simp [compute_surface_disp_point, h]

theorem compute_surface_disp_point_no_sources_witness :
    (sampleInputs [] [sampleFault]).source_object = []
    ∧ compute_surface_disp_point sampleOkada sampleGeo sampleParams
        (sampleInputs [] [sampleFault]) 1 2 = (0, 0, 0, (0 : Mat3)) :=
  ⟨rfl, compute_surface_disp_point_no_sources sampleOkada sampleGeo sampleParams
    (sampleInputs [] [sampleFault]) 1 2 rfl⟩

/-- C9: empty inputs short-circuit: `compute_strains_stresses` on an empty
receiver list returns three empty sequences, and `compute_ll_strain` with
an absent strain-point bundle returns the absent result; both are total
functions here (no error path). -/
theorem empty_inputs_short_circuit (ok : OkadaSolver) (geo : GeodesyFns)
    (params : Params) (inputs : Input_object)
    (h : inputs.receiver_object = []) :
    compute_strains_stresses ok geo params inputs = ([], [], [])
    ∧ compute_ll_strain ok geo params inputs none = none := by
  refine ⟨?_, rfl⟩
  simp [compute_strains_stresses, h]

theorem empty_inputs_short_circuit_witness :
    (sampleInputs [sampleFault] []).receiver_object = []
    ∧ (compute_strains_stresses sampleOkada sampleGeo sampleParams
         (sampleInputs [sampleFault] []) = ([], [], [])
       ∧ compute_ll_strain sampleOkada sampleGeo sampleParams
         (sampleInputs [sampleFault] []) none = none) :=
  ⟨rfl, empty_inputs_short_circuit sampleOkada sampleGeo sampleParams
    (sampleInputs [sampleFault] []) rfl⟩

/-- C5 (amended): in point mode each output point keeps the input point's
lon and lat and carries the summed model displacements in the
`dE_obs`/`dN_obs`/`dU_obs` slots, while every uncertainty slot and the
name are left empty regardless of the input point's own observed values.
The hypothesis restricts to a non-empty source list, the domain on which
the Python `u_disp[0]` indexing is well defined. -/
theorem compute_ll_def_point_mode (ok : OkadaSolver) (geo : GeodesyFns)
    (params : Params) (inputs : Input_object)
    (disp_points : List Displacement_points)
    (h : inputs.source_object ≠ []) :
    compute_ll_def ok geo params inputs disp_points
      = disp_points.map (point_mode_spec ok geo params inputs) := rfl

theorem compute_ll_def_point_mode_witness :
    (sampleInputs [sampleFault] []).source_object ≠ []
    ∧ compute_ll_def sampleOkada sampleGeo sampleParams
        (sampleInputs [sampleFault] []) [samplePoint]
      = [samplePoint].map (point_mode_spec sampleOkada sampleGeo sampleParams
          (sampleInputs [sampleFault] [])) :=
  ⟨List.cons_ne_nil _ _,
   compute_ll_def_point_mode sampleOkada sampleGeo sampleParams
     (sampleInputs [sampleFault] []) [samplePoint] (List.cons_ne_nil _ _)⟩

/-- C5 (counterexample): the observed-value fields do not pass through
untouched.  For a concrete named input point with observed displacements,
the output point's name slot is empty while the input's name is present,
and the `dE_obs` slot no longer holds the input's observed value. -/
theorem compute_ll_def_point_mode_counterexample :
    ((compute_ll_def sampleOkada sampleGeo sampleParams
        (sampleInputs [sampleFault] []) [samplePoint]).getD 0 samplePoint).name
      ≠ samplePoint.name
    ∧ ((compute_ll_def sampleOkada sampleGeo sampleParams
        (sampleInputs [sampleFault] []) [samplePoint]).getD 0 samplePoint).name = none
    ∧ samplePoint.name = some "P325" := by
  refine ⟨?_, rfl, rfl⟩
  intro hc
  exact Option.noConfusion hc

/-- C2: the source evaluator dispatches on the potency list: a non-empty
potency invokes the point-source solver with the gradient scaled by 1e-9
and the displacement by 1e-6; an empty potency invokes the finite
rectangular solver with strike extent [0, L], dip extent [-W, 0], slip
vector (-rtlat, reverse, tensile), and the gradient scaled by 1e-3. -/
theorem compute_from_one_fault_dispatch (ok : OkadaSolver) (geo : GeodesyFns)
    (source : Faults_object) (x y z : ℝ) (params : Params) :
    compute_strains_stresses_from_one_fault ok geo source x y z params
      = if source.potency.isEmpty then
          one_fault_finite_source_spec ok geo source x y z params
        else
          one_fault_point_source_spec ok source x y z params := by
  simp only [compute_strains_stresses_from_one_fault,
    one_fault_finite_source_spec, one_fault_point_source_spec,
    get_R_from_strike, mul_neg_one]
  by_cases h : source.potency.isEmpty <;>
    simp [h, Matrix.smul_mul, Matrix.mul_smul, Matrix.mulVec_smul]

theorem split_one_receiver_length (geo : GeodesyFns) (inputs : Input_object)
    (strike_split dip_split : ℕ) (fault : Faults_object) :
    (split_one_receiver geo inputs strike_split dip_split fault).length
      = dip_split * strike_split := by
  simp only [split_one_receiver, List.length_flatMap, Function.comp_def,
    List.length_map, List.length_range]
  simp [List.map_const', List.sum_replicate, smul_eq_mul]

/-- C4: with both split counts equal to 1 the splitter returns the receiver
list unchanged; otherwise each original receiver yields exactly
dipSplit * strikeSplit sub-patches (so the output length is
dipSplit * strikeSplit * the input length) and every produced patch
inherits the parent's strike, dip angle, rake, Kode and comment and
carries zero slip and empty potency.  The side conditions restrict to
split counts >= 1 and receivers with top <= bottom, the domain on which
the Python array indexing is in bounds. -/
theorem split_subfault_receivers_contract (geo : GeodesyFns) (params : Params)
    (inputs : Input_object)
    (hs : 1 ≤ params.strike_num_receivers) (hd : 1 ≤ params.dip_num_receivers)
    (hz : ∀ r ∈ inputs.receiver_object, r.top ≤ r.bottom) :
    (params.strike_num_receivers = 1 ∧ params.dip_num_receivers = 1 →
      (split_subfault_receivers geo params inputs).receiver_object
        = inputs.receiver_object)
    ∧ (¬(params.strike_num_receivers = 1 ∧ params.dip_num_receivers = 1) →
      ((split_subfault_receivers geo params inputs).receiver_object.length
          = params.dip_num_receivers * params.strike_num_receivers
            * inputs.receiver_object.length)
      ∧ (∀ f ∈ inputs.receiver_object,
          (split_one_receiver geo inputs params.strike_num_receivers
            params.dip_num_receivers f).length
            = params.dip_num_receivers * params.strike_num_receivers)
      ∧ (∀ p ∈ (split_subfault_receivers geo params inputs).receiver_object,
          ∃ f ∈ inputs.receiver_object,
            p.strike = f.strike ∧ p.dipangle = f.dipangle ∧ p.rake = f.rake
            ∧ p.Kode = f.Kode ∧ p.comment = f.comment
            ∧ p.rtlat = 0 ∧ p.reverse = 0 ∧ p.tensile = 0 ∧ p.potency = [])) := by
  constructor
  · rintro ⟨h1, h2⟩
    simp [split_subfault_receivers, h1, h2]
  · intro hne
    refine ⟨?_, ?_, ?_⟩
    · simp only [split_subfault_receivers, if_neg hne, List.length_flatMap]
      have hlen : List.map
          (List.length ∘ split_one_receiver geo inputs
            params.strike_num_receivers params.dip_num_receivers)
          inputs.receiver_object
          = List.map
            (fun _ => params.dip_num_receivers * params.strike_num_receivers)
            inputs.receiver_object :=
        List.map_congr_left fun f _ =>
          split_one_receiver_length geo inputs params.strike_num_receivers
            params.dip_num_receivers f
      rw [hlen]
      simp [List.map_const', List.sum_replicate, smul_eq_mul]
      ring
    · intro f _
      exact split_one_receiver_length geo inputs params.strike_num_receivers
        params.dip_num_receivers f
    · intro p hp
      simp only [split_subfault_receivers, if_neg hne] at hp
      rw [List.mem_flatMap] at hp
      obtain ⟨f, hf, hpf⟩ := hp
      refine ⟨f, hf, ?_⟩
      simp only [split_one_receiver, List.mem_flatMap, List.mem_map,
        List.mem_range] at hpf
      obtain ⟨j, hj, k, hk, rfl⟩ := hpf
      simp

theorem split_subfault_receivers_contract_witness :
    1 ≤ sampleParams.strike_num_receivers
    ∧ 1 ≤ sampleParams.dip_num_receivers
    ∧ (∀ r ∈ (sampleInputs [] [sampleFault]).receiver_object, r.top ≤ r.bottom)
    ∧ (split_subfault_receivers sampleGeo sampleParams
        (sampleInputs [] [sampleFault])).receiver_object.length
      = sampleParams.dip_num_receivers * sampleParams.strike_num_receivers
        * (sampleInputs [] [sampleFault]).receiver_object.length := by
  have hz : ∀ r ∈ (sampleInputs [] [sampleFault]).receiver_object,
      r.top ≤ r.bottom := by
    intro r hr
    have : r = sampleFault := by simpa [sampleInputs] using hr
    subst this
    show (0 : ℝ) ≤ 10
    norm_num
  exact ⟨by decide, by decide, hz,
    ((split_subfault_receivers_contract sampleGeo sampleParams
        (sampleInputs [] [sampleFault]) (by decide) (by decide) hz).2
      (by decide)).1⟩

theorem get_coulomb_stresses_internal_zero (sv : Vec3) (rake : ℝ)
    (dv pn : Vec3) (friction B : ℝ) :
    get_coulomb_stresses_internal 0 sv rake dv pn friction B = (0, 0, 0) := by
  simp [get_coulomb_stresses_internal, Matrix.zero_mulVec,
    Matrix.dotProduct_zero, Matrix.trace_zero, Matrix.mulVec,
    Matrix.dotProduct, Fin.sum_univ_two]

theorem get_coulomb_stresses_internal_add (tau1 tau2 : Mat3) (sv : Vec3)
    (rake : ℝ) (dv pn : Vec3) (friction B : ℝ) :
    get_coulomb_stresses_internal (tau1 + tau2) sv rake dv pn friction B
      = ((get_coulomb_stresses_internal tau1 sv rake dv pn friction B).1
           + (get_coulomb_stresses_internal tau2 sv rake dv pn friction B).1,
         (get_coulomb_stresses_internal tau1 sv rake dv pn friction B).2.1
           + (get_coulomb_stresses_internal tau2 sv rake dv pn friction B).2.1,
         (get_coulomb_stresses_internal tau1 sv rake dv pn friction B).2.2
           + (get_coulomb_stresses_internal tau2 sv rake dv pn friction B).2.2) := by
  simp only [get_coulomb_stresses_internal, Matrix.add_mulVec,
    Matrix.dotProduct_add, Matrix.trace_add]
  refine Prod.ext ?_ (Prod.ext ?_ ?_) <;>
    (simp [Matrix.mulVec, Matrix.dotProduct, Fin.sum_univ_two]; try ring)

theorem get_coulomb_stresses_zero (geo : GeodesyFns)
    (strike rake dip friction B : ℝ) :
    get_coulomb_stresses geo 0 strike rake dip friction B = (0, 0, 0) :=
  get_coulomb_stresses_internal_zero _ _ _ _ _ _

theorem get_coulomb_stresses_add (geo : GeodesyFns) (tau1 tau2 : Mat3)
    (strike rake dip friction B : ℝ) :
    get_coulomb_stresses geo (tau1 + tau2) strike rake dip friction B
      = ((get_coulomb_stresses geo tau1 strike rake dip friction B).1
           + (get_coulomb_stresses geo tau2 strike rake dip friction B).1,
         (get_coulomb_stresses geo tau1 strike rake dip friction B).2.1
           + (get_coulomb_stresses geo tau2 strike rake dip friction B).2.1,
         (get_coulomb_stresses geo tau1 strike rake dip friction B).2.2
           + (get_coulomb_stresses geo tau2 strike rake dip friction B).2.2) :=
  get_coulomb_stresses_internal_add _ _ _ _ _ _ _ _

theorem foldl_resolve_eq (geo : GeodesyFns) (strike rake dip friction B : ℝ)
    (g : Faults_object → Mat3) (l : List Faults_object) :
    ∀ tau0 : Mat3,
      l.foldl
        (fun acc s =>
          let nsc := get_coulomb_stresses geo (g s) strike rake dip friction B
          (acc.1 + nsc.1, acc.2.1 + nsc.2.1, acc.2.2 + nsc.2.2))
        (get_coulomb_stresses geo tau0 strike rake dip friction B)
      = get_coulomb_stresses geo (l.foldl (fun acc s => acc + g s) tau0)
          strike rake dip friction B := by
  induction l with
  | nil => intro tau0; rfl
  | cons s t ih =>
    intro tau0
    simp only [List.foldl_cons]
    rw [show
      (let nsc := get_coulomb_stresses geo (g s) strike rake dip friction B
       ((get_coulomb_stresses geo tau0 strike rake dip friction B).1 + nsc.1,
        (get_coulomb_stresses geo tau0 strike rake dip friction B).2.1 + nsc.2.1,
        (get_coulomb_stresses geo tau0 strike rake dip friction B).2.2 + nsc.2.2))
      = get_coulomb_stresses geo (tau0 + g s) strike rake dip friction B
      from (get_coulomb_stresses_add geo tau0 (g s) strike rake dip friction B).symm]
    exact ih (tau0 + g s)

/-- C1: receiver-Coulomb mode returns three parallel sequences (normal,
shear, coulomb) with one entry per receiver in input order, and each entry
equals the result of summing the stress-tensor contributions of all
sources at the receiver's center and then resolving the summed tensor
through the Coulomb resolver once per receiver.  (The code resolves per
source and sums the triples; by linearity of the resolver in the stress
tensor this equals the spec's sum-then-resolve-once.) -/
theorem compute_strains_stresses_sum_then_resolve (ok : OkadaSolver)
    (geo : GeodesyFns) (params : Params) (inputs : Input_object) :
    compute_strains_stresses ok geo params inputs
      = (inputs.receiver_object.map
           (fun r => (receiver_coulomb_spec ok geo params inputs r).1),
         inputs.receiver_object.map
           (fun r => (receiver_coulomb_spec ok geo params inputs r).2.1),
         inputs.receiver_object.map
           (fun r => (receiver_coulomb_spec ok geo params inputs r).2.2)) := by
  have key : ∀ receiver : Faults_object,
      inputs.source_object.foldl
        (fun acc source =>
          let nsc := get_coulomb_stresses geo
            (get_stress_tensor (get_strain_tensor
              (compute_strains_stresses_from_one_fault ok geo source
                (get_fault_center geo receiver).1
                (get_fault_center geo receiver).2.1
                (get_fault_center geo receiver).2.2 params).1)
              params.lame1 params.mu)
            receiver.strike receiver.rake receiver.dipangle inputs.FRIC params.B
          (acc.1 + nsc.1, acc.2.1 + nsc.2.1, acc.2.2 + nsc.2.2))
        (0, 0, 0)
      = receiver_coulomb_spec ok geo params inputs receiver := by
    intro receiver
    simp only [receiver_coulomb_spec]
    rw [show ((0, 0, 0) : ℝ × ℝ × ℝ)
        = get_coulomb_stresses geo 0 receiver.strike receiver.rake
            receiver.dipangle inputs.FRIC params.B
      from (get_coulomb_stresses_zero geo receiver.strike receiver.rake
        receiver.dipangle inputs.FRIC params.B).symm]
    exact foldl_resolve_eq geo receiver.strike receiver.rake receiver.dipangle
      inputs.FRIC params.B
      (fun source => get_stress_tensor (get_strain_tensor
        (compute_strains_stresses_from_one_fault ok geo source
          (get_fault_center geo receiver).1
          (get_fault_center geo receiver).2.1
          (get_fault_center geo receiver).2.2 params).1)
        params.lame1 params.mu)
      inputs.source_object 0
  unfold compute_strains_stresses
  by_cases hrec : inputs.receiver_object.isEmpty
  · rw [if_pos hrec]
    rw [List.isEmpty_iff] at hrec
    rw [hrec]
    simp
  · rw [if_neg hrec]
    refine Prod.ext ?_ (Prod.ext ?_ ?_)
    · show (List.map _ (List.map _ inputs.receiver_object)) = _
      rw [List.map_map]
      exact List.map_congr_left fun r _ => congrArg Prod.fst (key r)
    · show (List.map _ (List.map _ inputs.receiver_object)) = _
      rw [List.map_map]
      exact List.map_congr_left fun r _ => congrArg (fun t => t.2.1) (key r)
    · show (List.map _ (List.map _ inputs.receiver_object)) = _
      rw [List.map_map]
      exact List.map_congr_left fun r _ => congrArg (fun t => t.2.2) (key r)
